import Mathlib

/-!
Shallow embedding of `src/predict.py` (cog-image-urls-to-video).

The program downloads a comma-separated list of image URLs into a fresh
scratch directory (one file per successfully downloaded URL, named
`frame_<index><extension>`), invokes `ffmpeg` over the glob pattern
`frame_*.png` to build `animated.gif` or `animated.mp4`, and optionally
zips the scratch directory into `inputs.zip`.

Network and process effects are abstracted into an `Env`:
- `Env.valid` is the verdict of the `HEAD` probe in `is_valid_url`;
- `Env.download` is the body returned by the `GET` in
  `download_and_save_image` (`none` models an `aiohttp.ClientError`);
- `Env.encoder` is the fate of the single `subprocess.check_output` call.

File bytes are modelled as `List Nat`; paths as `String`.  Python's
`str(fps)` is carried as an opaque `String` argument, since the code only
ever uses the rendered form inside the ffmpeg argument vector.
-/

/-- Last index of `c` in `l`, mirroring Python's `str.rfind` (`none` for -1). -/
def rfind? (l : List Char) (c : Char) : Option Nat :=
  match l with
  | [] => none
  | x :: xs =>
    match rfind? xs c with
    | some i => some (i + 1)
    | none => if x = c then some 0 else none

/-- Index of the first character after the last `/`, i.e. `p.rfind('/') + 1`
as used by `posixpath.splitext`. -/
def splitextFiData (l : List Char) : Nat :=
  match rfind? l '/' with
  | some i => i + 1
  | none => 0

/-- Character-list core of `posixpath.splitext`: split at the last dot,
provided that dot comes after the last slash and the basename does not consist
solely of leading dots up to it. -/
def splitextData (l : List Char) : List Char × List Char :=
  match rfind? l '.' with
  | none => (l, [])
  | some di =>
    if splitextFiData l ≤ di ∧
        ((l.drop (splitextFiData l)).take (di - splitextFiData l)).any (fun c => c != '.') = true then
      (l.take di, l.drop di)
    else (l, [])

/-- `os.path.splitext` (posix flavour), as applied to the whole URL string in
`download_and_save_image`. -/
def splitext (p : String) : String × String :=
  (⟨(splitextData p.data).1⟩, ⟨(splitextData p.data).2⟩)

/-- `posixpath.join` restricted to two components, as called by
`os.path.join(temp_dir, temp_file_name)`. -/
def os_path_join (a b : String) : String :=
  if b.data.head? = some '/' then b
  else if a.data = [] ∨ a.data.getLast? = some '/' then a ++ b
  else a ++ "/" ++ b

/-- Trailing-slash stripping used by `posixpath.dirname` (`head.rstrip('/')`). -/
def dropTrailingSlashes (l : List Char) : List Char :=
  (l.reverse.dropWhile (fun c => c = '/')).reverse

/-- Character-list core of `posixpath.dirname`: everything before the last
slash, with trailing slashes stripped unless the prefix is all slashes. -/
def dirnameData (l : List Char) : List Char :=
  match rfind? l '/' with
  | none => []
  | some i =>
    if (l.take (i + 1)).any (fun c => c != '/') = true then
      dropTrailingSlashes (l.take (i + 1))
    else l.take (i + 1)

/-- `os.path.dirname` (posix flavour), as applied to `images[0]` in
`create_animated_media`. -/
def os_path_dirname (p : String) : String := ⟨dirnameData p.data⟩

/-- Decimal digit characters. -/
def digitChar (n : Nat) : Char :=
  match n with
  | 0 => '0' | 1 => '1' | 2 => '2' | 3 => '3' | 4 => '4'
  | 5 => '5' | 6 => '6' | 7 => '7' | 8 => '8' | _ => '9'

/-- Fuelled decimal rendering of a natural number (most significant digit
first); fuel `n + 1` always suffices. -/
def natDigitsAux (fuel n : Nat) : List Char :=
  match fuel with
  | 0 => []
  | f + 1 =>
    if n < 10 then [digitChar n]
    else natDigitsAux f (n / 10) ++ [digitChar (n % 10)]

/-- Decimal rendering of a natural number, as Python's f-string interpolation
of a non-negative `int` produces it. -/
def natToStr (n : Nat) : String := ⟨natDigitsAux (n + 1) n⟩

/-- Python's `s.split(',')`: splits at every comma; the empty string yields
a single empty field. -/
def splitCommaAux : List Char → List Char → List String
  | [], acc => [⟨acc.reverse⟩]
  | c :: cs, acc =>
    if c = ',' then ⟨acc.reverse⟩ :: splitCommaAux cs []
    else splitCommaAux cs (c :: acc)

/-- `image_urls.split(',')` from `Predictor.predict`. -/
def pySplitComma (s : String) : List String := splitCommaAux s.data []

/-- Byte-order comparison of strings (C-collation `strcmp`-style `≤`), the
order POSIX `glob` sorts its matches in. -/
def charListLe : List Char → List Char → Bool
  | [], _ => true
  | _ :: _, [] => false
  | a :: as, b :: bs =>
    if a.toNat < b.toNat then true
    else if b.toNat < a.toNat then false
    else charListLe as bs

/-- Insertion into a list sorted by `charListLe`. -/
def insertSorted (x : String) : List String → List String
  | [] => [x]
  | y :: ys => if charListLe x.data y.data then x :: y :: ys else y :: insertSorted x ys

/-- Insertion sort by byte order, modelling the sorted output of `glob`. -/
def sortStrings : List String → List String
  | [] => []
  | x :: xs => insertSorted x (sortStrings xs)

/-- Whether a file name matches the shell pattern `frame_*.png` that
`create_animated_media` hands to ffmpeg (`-pattern_type glob`). -/
def globMatchesFramePng (name : String) : Bool :=
  List.isPrefixOf "frame_".data name.data && List.isSuffixOf ".png".data name.data

/-- The frame files the ffmpeg glob demuxer discovers and their order: the
scratch-directory entries matching `frame_*.png`, sorted byte-lexicographically
(POSIX `glob` sorts, `GLOB_NOSORT` unset). -/
def globFrames (names : List String) : List String :=
  sortStrings (names.filter globMatchesFramePng)

/-- Fate of the single `subprocess.check_output(command)` call: normal exit,
non-zero exit (`CalledProcessError`), or failure to spawn the `ffmpeg`
binary at all (`FileNotFoundError`). -/
inductive EncoderOutcome
  | success
  | nonZeroExit
  | spawnFailure

/-- Python exceptions that escape the modelled code (none of these are caught
by `predict.py`, whose handlers only cover `aiohttp.ClientError`,
`subprocess.CalledProcessError`, `ValueError` and `json.JSONDecodeError`). -/
inductive PyExc
  | typeError
  | indexError
  | fileNotFoundError

/-- The external world of one pipeline run: HEAD-probe verdicts, GET bodies,
and the encoder process outcome. -/
structure Env where
  valid : String → Bool
  download : String → Option (List Nat)
  encoder : EncoderOutcome

/-- The fresh per-run scratch directory returned by `tempfile.mkdtemp()`;
fixed to one concrete path since exactly one invocation is modelled. -/
def temp_dir : String := "/tmp/scratch"

/-- `download_and_save_image(session, url, temp_dir, frame_number)`: on a
successful GET, writes the body to
`os.path.join(temp_dir, f"frame_{frame_number}{os.path.splitext(url)[1]}")`
and returns that path; on `aiohttp.ClientError` logs and returns `None`.
Result: `some (returned path, (file name written, bytes written))`, or
`none` with no file created. -/
def download_and_save_image (env : Env) (url : String) (dir : String) (frame_number : Nat) :
    Option (String × (String × List Nat)) :=
  match env.download url with
  | some image_data =>
    some (os_path_join dir ("frame_" ++ natToStr frame_number ++ (splitext url).2),
          ("frame_" ++ natToStr frame_number ++ (splitext url).2, image_data))
  | none => none

/-- `save_images(image_urls)`: one task per URL whose HEAD probe succeeded,
keeping the URL's original `enumerate` index as its frame number; `gather`
preserves task order.  Result: the returned `saved_images` list (with `None`
placeholders for failed downloads) and the files written into the scratch
directory, in task order. -/
def save_images (env : Env) (image_urls : List String) :
    List (Option String) × List (String × List Nat) :=
  let tasks := image_urls.enum.filter (fun p => env.valid p.2)
  (tasks.map (fun p => (download_and_save_image env p.2 temp_dir p.1).map Prod.fst),
   tasks.filterMap (fun p => (download_and_save_image env p.2 temp_dir p.1).map Prod.snd))

/-- The ffmpeg argument vector built in `create_animated_media`. -/
def animated_command (first : String) (fps : String) (mp4 : Bool) (output_filename : String) :
    List String :=
  ["ffmpeg", "-r", fps, "-pattern_type", "glob", "-i",
    os_path_join (os_path_dirname first) "frame_*.png"] ++
  (if mp4 then ["-pix_fmt", "yuv420p", "-c:v", "libx264", "-movflags", "faststart", "-qp", "17"]
   else ["-pix_fmt", "rgb8"]) ++
  [output_filename]

/-- `create_animated_media(images, output_filename, fps, mp4)`.  `images[0]`
raises `IndexError` on an empty list and `os.path.dirname(images[0])` raises
`TypeError` when the first entry is `None`; only
`subprocess.CalledProcessError` is caught (logged, `None` returned), so a
spawn failure (`FileNotFoundError`) propagates.  On the non-raising paths the
result also records the argument vector passed to `subprocess.check_output`. -/
def create_animated_media (encoder : EncoderOutcome) (images : List (Option String))
    (output_filename : String) (fps : String) (mp4 : Bool) :
    Except PyExc (Option String × Option (List String)) :=
  match images with
  | [] => .error .indexError
  | none :: _ => .error .typeError
  | some first :: _ =>
    match encoder with
    | .success => .ok (some output_filename, some (animated_command first fps mp4 output_filename))
    | .nonZeroExit => .ok (none, some (animated_command first fps mp4 output_filename))
    | .spawnFailure => .error .fileNotFoundError

/-- The `Output` model returned by `Predictor.predict`. -/
structure POutput where
  video : String
  zip : Option String

/-- Observable outcome of one `Predictor.predict` call: the returned `Output`,
the ffmpeg argument vector if `check_output` was reached, the final contents
of `inputs.zip` (name–bytes pairs), and whether the scratch directory was
removed before returning. -/
structure PredictEffects where
  output : POutput
  encoderCommand : Option (List String)
  inputsZip : Option (List (String × List Nat))
  scratchDestroyed : Bool

/-- `Predictor.predict(image_urls, mp4, fps, output_zip)`.  `prior_zip` is the
content of any pre-existing `inputs.zip` (the code removes it and opens the
archive in `"w"` mode before writing).  `saved_images` is truthy exactly when
non-empty (it may consist solely of `None` placeholders).  When the zip branch
runs, `Path(temp_dir).rglob("*")` enumerates exactly the files the fetch stage
wrote, and each is stored under `file_path.relative_to(temp_dir)`, i.e. its
bare file name.  No code path removes the scratch directory. -/
def predict (env : Env) (prior_zip : Option (List (String × List Nat)))
    (image_urls : String) (mp4 : Bool) (fps : String) (output_zip : Bool) :
    Except PyExc PredictEffects :=
  let urls := pySplitComma image_urls
  let saved_images := (save_images env urls).1
  let scratch := (save_images env urls).2
  if saved_images.isEmpty then
    .ok ⟨⟨".", none⟩, none, prior_zip, false⟩
  else
    match create_animated_media env.encoder saved_images
        (if mp4 then "animated.mp4" else "animated.gif") fps mp4 with
    | .error e => .error e
    | .ok r =>
      if output_zip then
        .ok ⟨⟨(if mp4 then "animated.mp4" else "animated.gif"), some "inputs.zip"⟩,
             r.2, some scratch, false⟩
      else
        .ok ⟨⟨(if mp4 then "animated.mp4" else "animated.gif"), none⟩,
             r.2, prior_zip, false⟩

/-- Environment in which every URL is reachable, every download succeeds with
body `[0]`, and the encoder exits normally. -/
def envAll : Env := ⟨fun _ => true, fun _ => some [0], .success⟩

/-- Environment in which every URL is reachable but every GET fails with a
client error (`download_and_save_image` logs and returns `None`). -/
def envDownFail : Env := ⟨fun _ => true, fun _ => none, .success⟩

/-- Environment in which no URL passes the HEAD probe. -/
def envInvalid : Env := ⟨fun _ => false, fun _ => none, .success⟩

example : splitext "a.png" = ("a", ".png") := by decide
example : splitext "https://host/c.jpg" = ("https://host/c", ".jpg") := by decide
example : splitext "https://bad.invalid/x" = ("https://bad.invalid/x", "") := by decide
example : splitext ".bashrc" = (".bashrc", "") := by decide
example : natToStr 10 = "10" := by decide
example : pySplitComma "" = [""] := by decide
example : pySplitComma "a,b" = ["a", "b"] := by decide
example : os_path_dirname "/tmp/scratch/frame_0.png" = "/tmp/scratch" := by decide
example :
    (save_images envAll ["https://host/a.png"]).2 = [("frame_0.png", [0])] := by decide

/-!  Helper lemmas about `rfind?` and the path helpers. -/

/-- `rfind?` finds nothing when the character does not occur. -/
theorem rfind?_eq_none_of_not_mem (c : Char) :
    ∀ (l : List Char), c ∉ l → rfind? l c = none
  | [], _ => rfl
  | x :: xs, h => by
    have hx : ¬ x = c := fun e => h (e ▸ List.mem_cons_self x xs)
    have hxs : c ∉ xs := fun m => h (List.mem_cons_of_mem _ m)
    simp [rfind?, rfind?_eq_none_of_not_mem c xs hxs, hx]

/-- Conversely, a `none` result means the character does not occur. -/
theorem not_mem_of_rfind?_eq_none (c : Char) (l : List Char)
    (h : rfind? l c = none) : c ∉ l := by
  induction l with
  | nil => simp
  | cons x xs ih =>
    simp only [rfind?] at h
    cases hr : rfind? xs c with
    | some i => simp [hr] at h
    | none =>
      rw [hr] at h
      intro m
      rcases List.mem_cons.mp m with e | m2
      · subst e; simp at h
      · exact ih hr m2

/-- Nothing beyond the index returned by `rfind?` is an occurrence. -/
theorem not_mem_drop_of_rfind? (c : Char) :
    ∀ (l : List Char) (i : Nat), rfind? l c = some i → c ∉ l.drop (i + 1) := by
  intro l
  induction l with
  | nil => intro i h; cases h
  | cons x xs ih =>
    intro i h
    simp only [rfind?] at h
    cases hr : rfind? xs c with
    | some j =>
      rw [hr] at h
      have hij : j + 1 = i := by injection h
      subst hij
      rw [List.drop_succ_cons]
      exact ih j hr
    | none =>
      rw [hr] at h
      by_cases hx : x = c
      · rw [if_pos hx] at h
        have h0 : (0 : Nat) = i := by injection h
        subst h0
        rw [List.drop_succ_cons, List.drop_zero]
        exact not_mem_of_rfind?_eq_none c xs hr
      · rw [if_neg hx] at h
        cases h

/-- Appending characters that do not contain `c` does not move its last
occurrence. -/
theorem rfind?_append (c : Char) (l q : List Char) (hq : c ∉ q) :
    rfind? (l ++ q) c = rfind? l c := by
  induction l with
  | nil => simpa using rfind?_eq_none_of_not_mem c q hq
  | cons x xs ih =>
    simp only [List.cons_append, rfind?]
    rw [show xs.append q = xs ++ q from rfl, ih]

/-- The extension computed by `splitext` never contains a slash: the dot it
splits at lies strictly after the last slash. -/
theorem ext_no_slash (l : List Char) : '/' ∉ (splitextData l).2 := by
  unfold splitextData
  split
  · simp
  next di hd =>
    split
    next hc =>
      show '/' ∉ l.drop di
      obtain ⟨hc1, _⟩ := hc
      unfold splitextFiData at hc1
      cases hs : rfind? l '/' with
      | none =>
        intro m
        exact not_mem_of_rfind?_eq_none '/' l hs (List.drop_subset _ _ m)
      | some s =>
        rw [hs] at hc1
        intro m
        exact not_mem_drop_of_rfind? '/' l s hs
          (List.drop_subset_drop_left l hc1 m)
    next => simp

/-- Digit characters are never a slash. -/
theorem digitChar_ne_slash (n : Nat) : digitChar n ≠ '/' := by
  unfold digitChar
  split <;> decide

/-- Decimal renderings never contain a slash. -/
theorem natDigitsAux_no_slash : ∀ (fuel n : Nat), '/' ∉ natDigitsAux fuel n := by
  intro fuel
  induction fuel with
  | zero => intro n; simp [natDigitsAux]
  | succ f ih =>
    intro n
    simp only [natDigitsAux]
    by_cases h : n < 10
    · rw [if_pos h]
      intro m
      exact digitChar_ne_slash n (List.mem_singleton.mp m).symm
    · rw [if_neg h]
      intro m
      rcases List.mem_append.mp m with m1 | m2
      · exact ih (n / 10) m1
      · exact digitChar_ne_slash (n % 10) (List.mem_singleton.mp m2).symm

/-- The scratch file names generated by `download_and_save_image` contain no
slash. -/
theorem frame_name_no_slash (i : Nat) (u : String) :
    '/' ∉ ("frame_" ++ natToStr i ++ (splitext u).2).data := by
  intro m
  rw [String.data_append, String.data_append] at m
  rcases List.mem_append.mp m with m1 | m2
  · rcases List.mem_append.mp m1 with m3 | m4
    · exact absurd m3 (by decide)
    · exact natDigitsAux_no_slash (i + 1) i m4
  · exact ext_no_slash u.data m2

/-- The scratch file names generated by `download_and_save_image` are
non-empty. -/
theorem frame_name_ne_nil (i : Nat) (u : String) :
    ("frame_" ++ natToStr i ++ (splitext u).2).data ≠ [] := by
  intro h
  have hl := congrArg List.length h
  rw [String.data_append, String.data_append, List.length_append,
    List.length_append] at hl
  have h6 : ("frame_".data).length = 6 := by decide
  rw [h6] at hl
  simp at hl

/-- Joining the scratch directory with a slash-free non-empty file name just
concatenates with a separator. -/
theorem os_path_join_temp (name : String) (h1 : name.data ≠ [])
    (h2 : '/' ∉ name.data) :
    os_path_join temp_dir name = ⟨"/tmp/scratch/".data ++ name.data⟩ := by
  unfold os_path_join
  have hh : ¬ name.data.head? = some '/' := by
    cases hnd : name.data with
    | nil => exact absurd hnd h1
    | cons c cs =>
      simp only [List.head?]
      intro e
      have hc : c = '/' := by injection e
      subst hc
      exact h2 (hnd ▸ List.mem_cons_self _ _)
  rw [if_neg hh]
  have hc2 : ¬ (temp_dir.data = [] ∨ temp_dir.data.getLast? = some '/') := by decide
  rw [if_neg hc2]
  apply String.ext
  rw [String.data_append, String.data_append]
  rw [show temp_dir.data ++ "/".data = "/tmp/scratch/".data from by decide]

/-- `os.path.dirname` recovers the scratch directory from a saved frame
path. -/
theorem dirname_join_temp (name : String) (h1 : name.data ≠ [])
    (h2 : '/' ∉ name.data) :
    os_path_dirname (os_path_join temp_dir name) = temp_dir := by
  rw [os_path_join_temp name h1 h2]
  unfold os_path_dirname
  apply String.ext
  show dirnameData ("/tmp/scratch/".data ++ name.data) = temp_dir.data
  unfold dirnameData
  have hr : rfind? ("/tmp/scratch/".data ++ name.data) '/' = some 12 := by
    rw [rfind?_append '/' _ _ h2]
    decide
  rw [hr]
  dsimp only
  have ht : ("/tmp/scratch/".data ++ name.data).take (12 + 1) = "/tmp/scratch/".data := by
    rw [List.take_append_of_le_length (by decide)]
    decide
  rw [ht]
  decide

/-- Any entry at the head of the `saved_images` list is a path produced by
`download_and_save_image`: the scratch directory joined with a generated
frame file name. -/
theorem saved_images_head (env : Env) (urls : List String) (img0 : String)
    (rest : List (Option String))
    (h : (save_images env urls).1 = some img0 :: rest) :
    ∃ i u, img0 = os_path_join temp_dir ("frame_" ++ natToStr i ++ (splitext u).2) := by
  simp only [save_images] at h
  cases ht : urls.enum.filter (fun p => env.valid p.2) with
  | nil => rw [ht] at h; cases h
  | cons p ps =>
    rw [ht, List.map_cons] at h
    have h0 : (download_and_save_image env p.2 temp_dir p.1).map Prod.fst = some img0 := by
      injection h
    rw [download_and_save_image] at h0
    cases hd : env.download p.2 with
    | none => rw [hd] at h0; cases h0
    | some d =>
      rw [hd] at h0
      dsimp only [Option.map] at h0
      have he : os_path_join temp_dir ("frame_" ++ natToStr p.1 ++ (splitext p.2).2) = img0 := by
        injection h0
      exact ⟨p.1, p.2, he.symm⟩

/-- A non-raising `create_animated_media` call means the first image slot held
a real path, and the recorded argument vector is `animated_command` for it. -/
theorem create_ok_command (enc : EncoderOutcome) (si : List (Option String))
    (out fps : String) (m : Bool) (r : Option String × Option (List String))
    (heq : create_animated_media enc si out fps m = .ok r) :
    ∃ first tl, si = some first :: tl ∧
      r.2 = some (animated_command first fps m out) := by
  match si, heq with
  | [], heq => exact Except.noConfusion heq
  | none :: tl, heq => exact Except.noConfusion heq
  | some first :: tl, heq =>
    refine ⟨first, tl, rfl, ?_⟩
    rw [create_animated_media.eq_def] at heq
    cases enc with
    | success =>
      dsimp only at heq
      have hr : ((some out, some (animated_command first fps m out)) :
          Option String × Option (List String)) = r := by injection heq
      rw [← hr]
    | nonZeroExit =>
      dsimp only at heq
      have hr : ((none, some (animated_command first fps m out)) :
          Option String × Option (List String)) = r := by injection heq
      rw [← hr]
    | spawnFailure => exact Except.noConfusion heq

/-- The argument vector for a first frame saved under the scratch directory:
fully explicit form, glob pattern rooted at the scratch directory. -/
theorem command_shape (m : Bool) (fps first : String) (i : Nat) (u' : String)
    (hfirst : first = os_path_join temp_dir ("frame_" ++ natToStr i ++ (splitext u').2)) :
    animated_command first fps m (if m then "animated.mp4" else "animated.gif") =
      ["ffmpeg", "-r", fps, "-pattern_type", "glob", "-i",
        "/tmp/scratch/frame_*.png"] ++
      (if m then ["-pix_fmt", "yuv420p", "-c:v", "libx264", "-movflags",
        "faststart", "-qp", "17"] else ["-pix_fmt", "rgb8"]) ++
      [if m then "animated.mp4" else "animated.gif"] := by
  rw [animated_command, hfirst,
    dirname_join_temp _ (frame_name_ne_nil i u') (frame_name_no_slash i u'),
    show os_path_join temp_dir "frame_*.png" = "/tmp/scratch/frame_*.png" from by decide]

/-!  Claim theorems. -/

/-- C1: the claim says the assembler's on-disk frame discovery (glob over the
scratch directory) yields the frames in original frame-index order for every
number of frames.  Evaluation of the code at eleven reachable, downloadable
`.png` URLs: the fetch stage writes `frame_0.png` … `frame_10.png`, but the
glob discovery sorts byte-lexicographically and yields `frame_10.png` between
`frame_1.png` and `frame_2.png` — not the original input order. -/
theorem c1_glob_discovery_misorders_frames :
    globFrames (((save_images envAll (List.replicate 11 "a.png")).2).map Prod.fst) =
      ["frame_0.png", "frame_1.png", "frame_10.png", "frame_2.png", "frame_3.png",
       "frame_4.png", "frame_5.png", "frame_6.png", "frame_7.png", "frame_8.png",
       "frame_9.png"] ∧
    globFrames (((save_images envAll (List.replicate 11 "a.png")).2).map Prod.fst) ≠
      ["frame_0.png", "frame_1.png", "frame_2.png", "frame_3.png", "frame_4.png",
       "frame_5.png", "frame_6.png", "frame_7.png", "frame_8.png", "frame_9.png",
       "frame_10.png"] := by
  decide

/-- C2: the claim says the encoder invocation covers exactly the K fetched
frames regardless of the URLs' file extensions.  Evaluation of the code at a
single reachable, downloadable `.jpg` URL: exactly one frame is fetched
(`frame_0.jpg`), yet the ffmpeg glob pattern `frame_*.png` matches zero of the
scratch-directory files. -/
theorem c2_jpg_frame_missed_by_png_glob :
    ((save_images envAll ["https://host/a.jpg"]).2).map Prod.fst = ["frame_0.jpg"] ∧
    globFrames (((save_images envAll ["https://host/a.jpg"]).2).map Prod.fst) = [] := by
  decide

/-- C3: the claim says that whenever zero frames are successfully fetched the
pipeline completes without invoking the encoder and without crashing.
Evaluation of the code at one URL that passes validation but whose download
fails: `save_images` returns `[None]` (truthy), no file is written, and
`predict` calls `create_animated_media`, where `os.path.dirname(images[0])`
raises an uncaught `TypeError`. -/
theorem c3_failed_download_raises_type_error :
    (save_images envDownFail ["u"]).1 = [none] ∧
    (save_images envDownFail ["u"]).2 = [] ∧
    predict envDownFail none "u" false "4" false = .error .typeError :=
  ⟨rfl, rfl, rfl⟩

/-- C4: the claim says the caller never receives a result whose fields are
individually invalid without an error being signaled.  Evaluation of the code
at an input with no valid URL (the empty input string splits to one empty URL,
which fails the HEAD probe): `predict` returns a non-error `Output` whose
primary media path is `"."` — a path at which no media file was produced —
and the encoder was never invoked. -/
theorem c4_degenerate_result_without_error :
    predict envInvalid none "" false "4" false =
      .ok ⟨⟨".", none⟩, none, none, false⟩ :=
  rfl

/-- C5: the encoder command constructed by the Media Assembler is determined
by the mode flag: in video mode the flags are exactly
`-pix_fmt yuv420p -c:v libx264 -movflags faststart -qp 17` and the output
file is `animated.mp4`; in looping-image mode the pixel format is `rgb8` with
no codec selection and the output file is `animated.gif`; in both modes the
command carries the frame rate (`-r str(fps)`) and the glob pattern
`frame_*.png` rooted at the scratch directory. -/
theorem c5_encoder_command_by_mode (env : Env)
    (prior : Option (List (String × List Nat))) (u : String) (m : Bool)
    (fps : String) (z : Bool) (eff : PredictEffects) (c : List String)
    (h : predict env prior u m fps z = .ok eff)
    (hc : eff.encoderCommand = some c) :
    c = ["ffmpeg", "-r", fps, "-pattern_type", "glob", "-i",
          "/tmp/scratch/frame_*.png"] ++
        (if m then ["-pix_fmt", "yuv420p", "-c:v", "libx264", "-movflags",
          "faststart", "-qp", "17"] else ["-pix_fmt", "rgb8"]) ++
        [if m then "animated.mp4" else "animated.gif"] ∧
    eff.output.video = (if m then "animated.mp4" else "animated.gif") := by
  simp only [predict] at h
  split at h
  · injection h with h'
    subst h'
    simp at hc
  · split at h
    next e heq => exact Except.noConfusion h
    next r heq =>
      obtain ⟨first, tl, hsi, hr2⟩ := create_ok_command env.encoder _ _ fps m r heq
      obtain ⟨i, u', hfirst⟩ := saved_images_head env (pySplitComma u) first tl hsi
      split at h
      · injection h with h'
        subst h'
        dsimp only at hc
        rw [hr2] at hc
        have h3 : animated_command first fps m
            (if m then "animated.mp4" else "animated.gif") = c := by
          injection hc
        exact ⟨h3 ▸ command_shape m fps first i u' hfirst, rfl⟩
      · injection h with h'
        subst h'
        dsimp only at hc
        rw [hr2] at hc
        have h3 : animated_command first fps m
            (if m then "animated.mp4" else "animated.gif") = c := by
          injection hc
        exact ⟨h3 ▸ command_shape m fps first i u' hfirst, rfl⟩

/-- Witness for C5: the concrete run with one reachable `.png` URL in video
mode evaluates as the theorem predicts. -/
theorem c5_encoder_command_by_mode_witness :
    predict envAll none "https://host/a.png" true "4" false =
      Except.ok ⟨⟨"animated.mp4", none⟩,
        some ["ffmpeg", "-r", "4", "-pattern_type", "glob", "-i",
          "/tmp/scratch/frame_*.png", "-pix_fmt", "yuv420p", "-c:v", "libx264",
          "-movflags", "faststart", "-qp", "17", "animated.mp4"],
        none, false⟩ ∧
    (["ffmpeg", "-r", "4", "-pattern_type", "glob", "-i",
        "/tmp/scratch/frame_*.png", "-pix_fmt", "yuv420p", "-c:v", "libx264",
        "-movflags", "faststart", "-qp", "17", "animated.mp4"] : List String) =
      ["ffmpeg", "-r", "4", "-pattern_type", "glob", "-i",
        "/tmp/scratch/frame_*.png"] ++
      (if true then ["-pix_fmt", "yuv420p", "-c:v", "libx264", "-movflags",
        "faststart", "-qp", "17"] else ["-pix_fmt", "rgb8"]) ++
      [if true then "animated.mp4" else "animated.gif"] :=
  ⟨rfl,
    (c5_encoder_command_by_mode envAll none "https://host/a.png" true "4" false
      ⟨⟨"animated.mp4", none⟩,
        some ["ffmpeg", "-r", "4", "-pattern_type", "glob", "-i",
          "/tmp/scratch/frame_*.png", "-pix_fmt", "yuv420p", "-c:v", "libx264",
          "-movflags", "faststart", "-qp", "17", "animated.mp4"],
        none, false⟩
      ["ffmpeg", "-r", "4", "-pattern_type", "glob", "-i",
        "/tmp/scratch/frame_*.png", "-pix_fmt", "yuv420p", "-c:v", "libx264",
        "-movflags", "faststart", "-qp", "17", "animated.mp4"] rfl rfl).1⟩

/-- Pointwise-equal functions give equal `filterMap`s. -/
theorem filterMap_fun_ext {α β : Type} (f g : α → Option β) (hfg : ∀ a, f a = g a)
    (l : List α) : l.filterMap f = l.filterMap g := by
  rw [funext hfg]

/-- Environment for the spec's worked example: the second URL fails the HEAD
probe, every other URL downloads with body `[1]`. -/
def envC6 : Env := ⟨fun u => u != "https://bad.invalid/x", fun _ => some [1], .success⟩

/-- C6: counterexample to the claim's frame numbering.  For the claimed inputs
with the second URL failing validation, the code keeps each URL's original
`enumerate` index, so the saved frame set is `frame_0.png` and `frame_2.jpg`,
not `frame_0.png` and `frame_1.jpg` as the claim states. -/
theorem c6_example_frame_names_counterexample :
    ((save_images envC6
        ["https://host/a.png", "https://bad.invalid/x", "https://host/c.jpg"]).2).map
        Prod.fst = ["frame_0.png", "frame_2.jpg"] ∧
    (["frame_0.png", "frame_2.jpg"] : List String) ≠ ["frame_0.png", "frame_1.jpg"] := by
  decide

/-- C6 (amended): each successfully downloaded URL is written to exactly one
file named `frame_<i><ext>` where `i` is the URL's original 0-based input
index (indices of URLs that fail validation or download are skipped, not
renumbered) and `<ext>` is `os.path.splitext` of the whole URL; on the spec's
example inputs the saved frame set is therefore `frame_0.png` and
`frame_2.jpg`. -/
theorem c6_frame_naming_amended :
    (∀ (env : Env) (urls : List String),
      (save_images env urls).2 =
        (urls.enum.filter (fun p => env.valid p.2)).filterMap
          (fun p => (env.download p.2).map
            (fun d => ("frame_" ++ natToStr p.1 ++ (splitext p.2).2, d)))) ∧
    ((save_images envC6
        ["https://host/a.png", "https://bad.invalid/x", "https://host/c.jpg"]).2).map
        Prod.fst = ["frame_0.png", "frame_2.jpg"] := by
  constructor
  · intro env urls
    simp only [save_images]
    apply filterMap_fun_ext
    intro p
    cases hd : env.download p.2 with
    | none => simp [download_and_save_image, hd]
    | some d => simp [download_and_save_image, hd]
  · decide

/-- C7: counterexample.  The claim says a spawn failure (missing encoder
binary) yields an absent result; in the code only
`subprocess.CalledProcessError` is caught, so `FileNotFoundError` propagates
as an exception instead of an `.ok none` return. -/
theorem c7_spawn_failure_counterexample :
    create_animated_media .spawnFailure [some "/tmp/scratch/frame_0.png"]
      "animated.gif" "4" false = .error .fileNotFoundError ∧
    create_animated_media .spawnFailure [some "/tmp/scratch/frame_0.png"]
      "animated.gif" "4" false ≠
      .ok (none, some (animated_command "/tmp/scratch/frame_0.png" "4" false
        "animated.gif")) := by
  refine ⟨rfl, ?_⟩
  intro hcontra
  rw [show create_animated_media .spawnFailure [some "/tmp/scratch/frame_0.png"]
      "animated.gif" "4" false = .error .fileNotFoundError from rfl] at hcontra
  exact Except.noConfusion hcontra

/-- C7 (amended): given a first frame path, the Media Assembler returns the
output path exactly when the encoder exits with code zero, returns an absent
result (logging the error) on a non-zero exit, and on a spawn failure (e.g.
missing `ffmpeg` binary) raises `FileNotFoundError`, which propagates instead
of being converted to an absent result. -/
theorem c7_encoder_result_amended (imgs : List (Option String)) (first : String)
    (tl : List (Option String)) (out fps : String) (m : Bool)
    (h : imgs = some first :: tl) :
    create_animated_media .success imgs out fps m =
      .ok (some out, some (animated_command first fps m out)) ∧
    create_animated_media .nonZeroExit imgs out fps m =
      .ok (none, some (animated_command first fps m out)) ∧
    create_animated_media .spawnFailure imgs out fps m = .error .fileNotFoundError := by
  subst h
  exact ⟨rfl, rfl, rfl⟩

/-- Witness for C7 (amended) at a singleton image list. -/
theorem c7_encoder_result_amended_witness :
    ([some "/tmp/scratch/frame_0.png"] : List (Option String)) =
      some "/tmp/scratch/frame_0.png" :: [] ∧
    (create_animated_media .success [some "/tmp/scratch/frame_0.png"]
        "animated.gif" "4" false =
      .ok (some "animated.gif", some (animated_command "/tmp/scratch/frame_0.png"
        "4" false "animated.gif")) ∧
    create_animated_media .nonZeroExit [some "/tmp/scratch/frame_0.png"]
        "animated.gif" "4" false =
      .ok (none, some (animated_command "/tmp/scratch/frame_0.png"
        "4" false "animated.gif")) ∧
    create_animated_media .spawnFailure [some "/tmp/scratch/frame_0.png"]
        "animated.gif" "4" false = .error .fileNotFoundError) :=
  ⟨rfl, c7_encoder_result_amended [some "/tmp/scratch/frame_0.png"]
    "/tmp/scratch/frame_0.png" [] "animated.gif" "4" false rfl⟩

/-- If the fetch stage wrote at least one file, the `saved_images` list is
non-empty (so the zip branch's guard passes). -/
theorem scratch_nonempty_saved (env : Env) (urls : List String)
    (h : (save_images env urls).2 ≠ []) : (save_images env urls).1 ≠ [] := by
  simp only [save_images] at h ⊢
  intro h1
  rw [List.map_eq_nil_iff] at h1
  rw [h1] at h
  exact h rfl

/-- Environment for the C8 counterexample: both URLs pass the HEAD probe, the
first download fails with a client error, the second succeeds. -/
def envC8 : Env := ⟨fun _ => true, fun u => if u = "u1" then none else some [7], .success⟩

/-- C8: counterexample.  Archiving is requested and exactly one frame was
fetched (`frame_1`, from the second URL), yet no archive is produced: the
first fetch result is a `None` placeholder, so `create_animated_media` raises
`TypeError` before the zip branch is reached. -/
theorem c8_archive_counterexample :
    ((save_images envC8 (pySplitComma "u1,u2")).2).map Prod.fst = ["frame_1"] ∧
    predict envC8 (some [("old", [1])]) "u1,u2" false "4" true = .error .typeError :=
  ⟨by decide, rfl⟩

/-- C8 (amended): when archiving is requested, at least one frame was fetched,
and the run completes without an exception (in particular the first validated
URL's download succeeded and the encoder binary spawned), every file written
into the scratch directory by the fetch stage appears in the produced archive
with identical byte content under its scratch-relative name — the archive
contents equal the scratch contents exactly — and any pre-existing archive at
the fixed target path is overwritten (the result does not depend on
`prior_zip`). -/
theorem c8_archive_roundtrip_amended (env : Env)
    (prior : Option (List (String × List Nat))) (u : String) (m : Bool)
    (fps : String) (eff : PredictEffects)
    (h : predict env prior u m fps true = .ok eff)
    (hfetched : (save_images env (pySplitComma u)).2 ≠ []) :
    eff.inputsZip = some ((save_images env (pySplitComma u)).2) := by
  simp only [predict] at h
  split at h
  next hempty =>
    exact absurd (List.isEmpty_iff.mp hempty)
      (scratch_nonempty_saved env (pySplitComma u) hfetched)
  next hempty =>
    split at h
    next e heq => exact Except.noConfusion h
    next r heq =>
      split at h
      next hz =>
        injection h with h'
        subst h'
        rfl
      next hz => exact absurd trivial hz

/-- Witness for C8 (amended): a concrete archiving run with one fetched frame
and a pre-existing archive; the final archive holds exactly the scratch
contents. -/
theorem c8_archive_roundtrip_amended_witness :
    (predict envAll (some [("old", [2])]) "https://host/a.png" false "4" true =
      Except.ok ⟨⟨"animated.gif", some "inputs.zip"⟩,
        some ["ffmpeg", "-r", "4", "-pattern_type", "glob", "-i",
          "/tmp/scratch/frame_*.png", "-pix_fmt", "rgb8", "animated.gif"],
        some [("frame_0.png", [0])], false⟩ ∧
     (save_images envAll (pySplitComma "https://host/a.png")).2 ≠ []) ∧
    (⟨⟨"animated.gif", some "inputs.zip"⟩,
        some ["ffmpeg", "-r", "4", "-pattern_type", "glob", "-i",
          "/tmp/scratch/frame_*.png", "-pix_fmt", "rgb8", "animated.gif"],
        some [("frame_0.png", [0])], false⟩ : PredictEffects).inputsZip =
      some ((save_images envAll (pySplitComma "https://host/a.png")).2) :=
  ⟨⟨rfl, by decide⟩,
    c8_archive_roundtrip_amended envAll (some [("old", [2])]) "https://host/a.png"
      false "4"
      ⟨⟨"animated.gif", some "inputs.zip"⟩,
        some ["ffmpeg", "-r", "4", "-pattern_type", "glob", "-i",
          "/tmp/scratch/frame_*.png", "-pix_fmt", "rgb8", "animated.gif"],
        some [("frame_0.png", [0])], false⟩ rfl (by decide)⟩

/-- C9: counterexample.  A complete run with archiving not requested: the
scratch directory is not destroyed before `predict` returns (no code path
removes it), contradicting the claim that the facade destroys it. -/
theorem c9_scratch_survives_counterexample :
    predict envAll none "https://host/a.png" false "4" false =
      .ok ⟨⟨"animated.gif", none⟩,
        some ["ffmpeg", "-r", "4", "-pattern_type", "glob", "-i",
          "/tmp/scratch/frame_*.png", "-pix_fmt", "rgb8", "animated.gif"],
        none, false⟩ :=
  rfl

/-- C9 (amended): the Pipeline Facade never destroys the per-run scratch
directory: on every invocation that returns normally, whether or not
archiving was requested, the scratch directory still exists when `predict`
returns (it is leaked). -/
theorem c9_scratch_never_destroyed_amended (env : Env)
    (prior : Option (List (String × List Nat))) (u : String) (m : Bool)
    (fps : String) (z : Bool) (eff : PredictEffects)
    (h : predict env prior u m fps z = .ok eff) :
    eff.scratchDestroyed = false := by
  simp only [predict] at h
  split at h
  · injection h with h'
    subst h'
    rfl
  · split at h
    next e heq => exact Except.noConfusion h
    next r heq =>
      split at h
      · injection h with h'
        subst h'
        rfl
      · injection h with h'
        subst h'
        rfl

/-- Witness for C9 (amended) at a concrete non-archiving run. -/
theorem c9_scratch_never_destroyed_amended_witness :
    predict envAll none "https://host/a.png" true "4" true =
      Except.ok ⟨⟨"animated.mp4", some "inputs.zip"⟩,
        some ["ffmpeg", "-r", "4", "-pattern_type", "glob", "-i",
          "/tmp/scratch/frame_*.png", "-pix_fmt", "yuv420p", "-c:v", "libx264",
          "-movflags", "faststart", "-qp", "17", "animated.mp4"],
        some [("frame_0.png", [0])], false⟩ ∧
    (⟨⟨"animated.mp4", some "inputs.zip"⟩,
        some ["ffmpeg", "-r", "4", "-pattern_type", "glob", "-i",
          "/tmp/scratch/frame_*.png", "-pix_fmt", "yuv420p", "-c:v", "libx264",
          "-movflags", "faststart", "-qp", "17", "animated.mp4"],
        some [("frame_0.png", [0])], false⟩ : PredictEffects).scratchDestroyed = false :=
  ⟨rfl,
    c9_scratch_never_destroyed_amended envAll none "https://host/a.png" true "4" true
      ⟨⟨"animated.mp4", some "inputs.zip"⟩,
        some ["ffmpeg", "-r", "4", "-pattern_type", "glob", "-i",
          "/tmp/scratch/frame_*.png", "-pix_fmt", "yuv420p", "-c:v", "libx264",
          "-movflags", "faststart", "-qp", "17", "animated.mp4"],
        some [("frame_0.png", [0])], false⟩ rfl⟩

/-- C10: the saved frame file's extension is computed by `os.path.splitext`
over the entire URL string, splitting at its last dot; for every URL carrying
a query after the final dot (here `https://host/a.png?` followed by any
dot-free, slash-free query text), the suffix including the query text becomes
part of the saved filename (`frame_0.png?<query>`) rather than the bare media
extension. -/
theorem c10_query_suffix_in_filename (q : List Char)
    (h1 : '.' ∉ q) (h2 : '/' ∉ q) :
    splitext ⟨"https://host/a.png?".data ++ q⟩ =
      ("https://host/a", ⟨".png?".data ++ q⟩) ∧
    download_and_save_image envAll ⟨"https://host/a.png?".data ++ q⟩ temp_dir 0 =
      some (os_path_join temp_dir ⟨"frame_0.png?".data ++ q⟩,
            (⟨"frame_0.png?".data ++ q⟩, [0])) := by
  have hdata : (⟨"https://host/a.png?".data ++ q⟩ : String).data =
      "https://host/a.png?".data ++ q := rfl
  have hd : rfind? ("https://host/a.png?".data ++ q) '.' = some 14 := by
    rw [rfind?_append '.' _ _ h1]
    decide
  have hs : rfind? ("https://host/a.png?".data ++ q) '/' = some 12 := by
    rw [rfind?_append '/' _ _ h2]
    decide
  have hdrop13 : ("https://host/a.png?".data ++ q).drop 13 = "a.png?".data ++ q := by
    rw [List.drop_append_of_le_length (by decide)]
    congr 1
  have htake14 : ("https://host/a.png?".data ++ q).take 14 = "https://host/a".data := by
    rw [List.take_append_of_le_length (by decide)]
    decide
  have hdrop14 : ("https://host/a.png?".data ++ q).drop 14 = ".png?".data ++ q := by
    rw [List.drop_append_of_le_length (by decide)]
    congr 1
  have hsp : splitextData ("https://host/a.png?".data ++ q) =
      ("https://host/a".data, ".png?".data ++ q) := by
    unfold splitextData splitextFiData
    rw [hd, hs]
    dsimp only
    rw [if_pos]
    · rw [htake14, hdrop14]
    · refine ⟨by omega, ?_⟩
      rw [hdrop13]
      rw [show (14 - (12 + 1)) = 1 from by omega]
      rw [List.take_append_of_le_length (by decide)]
      decide
  have hext : (splitext ⟨"https://host/a.png?".data ++ q⟩).2 = ⟨".png?".data ++ q⟩ := by
    unfold splitext
    rw [hdata, hsp]
  have hname : "frame_" ++ natToStr 0 ++ (⟨".png?".data ++ q⟩ : String) =
      ⟨"frame_0.png?".data ++ q⟩ := by
    apply String.ext
    rw [String.data_append, String.data_append]
    show "frame_".data ++ (natToStr 0).data ++ (".png?".data ++ q) =
      "frame_0.png?".data ++ q
    rw [← List.append_assoc]
    congr 1
  constructor
  · unfold splitext
    rw [hdata, hsp]
  · rw [download_and_save_image.eq_def]
    show (match some [0] with
      | some image_data =>
        some (os_path_join temp_dir ("frame_" ++ natToStr 0 ++
          (splitext ⟨"https://host/a.png?".data ++ q⟩).2),
          ("frame_" ++ natToStr 0 ++
            (splitext ⟨"https://host/a.png?".data ++ q⟩).2, image_data))
      | none => none) = _
    dsimp only
    rw [hext, hname]

/-- Witness for C10 at the query text `token=1`. -/
theorem c10_query_suffix_in_filename_witness :
    ('.' ∉ "token=1".data ∧ '/' ∉ "token=1".data) ∧
    (splitext "https://host/a.png?token=1" =
      ("https://host/a", ".png?token=1") ∧
    download_and_save_image envAll "https://host/a.png?token=1" temp_dir 0 =
      some (os_path_join temp_dir "frame_0.png?token=1",
            ("frame_0.png?token=1", [0]))) :=
  ⟨⟨by decide, by decide⟩,
    c10_query_suffix_in_filename "token=1".data (by decide) (by decide)⟩
